import Mathlib

/-!
Shallow embedding of the interaction/state core of the `yew_node_graph`
visual node-graph editor (files `state/graph_impls.rs`, `state/graph_editor.rs`,
`state/ui_state.rs`).

Modelling conventions:
* `glam::Vec2` (a pair of `f32`) is modelled as a pair of rationals, so that
  the affine algebra is exact and all predicates are decidable.
* The slotmap arenas (`SlotMap` / `SecondaryMap`) are modelled as association
  lists with a fresh-key counter; `insert` replaces any existing binding for
  the key, `remove` deletes it, matching slotmap semantics for live keys.
* `Rc`/`RefCell` interior mutability disappears in the functional model:
  every operation takes a state and returns the updated state (plus its
  return value).
* Rust code that panics on a stale id (`Index` on a removed key, `expect`)
  is modelled by leaving the state unchanged in the impossible branch; no
  claim exercises those branches.
-/

set_option autoImplicit false

/-- Model of `glam::Vec2` with exact rational coordinates. -/
structure Vec2 where
  x : ℚ
  y : ℚ
deriving DecidableEq, Repr

namespace Vec2

def add (a b : Vec2) : Vec2 := ⟨a.x + b.x, a.y + b.y⟩

def sub (a b : Vec2) : Vec2 := ⟨a.x - b.x, a.y - b.y⟩

def neg (a : Vec2) : Vec2 := ⟨-a.x, -a.y⟩

/-- Scalar multiplication, `zoom * v` in the Rust source. -/
def smul (k : ℚ) (a : Vec2) : Vec2 := ⟨k * a.x, k * a.y⟩

/-- Componentwise minimum, `glam::Vec2::min`. -/
def vmin (a b : Vec2) : Vec2 := ⟨min a.x b.x, min a.y b.y⟩

/-- Componentwise maximum, `glam::Vec2::max`. -/
def vmax (a b : Vec2) : Vec2 := ⟨max a.x b.x, max a.y b.y⟩

/-- Model of `a.cmplt(b).all()`: both components strictly less. -/
def cmplt_all (a b : Vec2) : Bool := decide (a.x < b.x) && decide (a.y < b.y)

def zero : Vec2 := ⟨0, 0⟩

instance : Add Vec2 := ⟨Vec2.add⟩
instance : Sub Vec2 := ⟨Vec2.sub⟩
instance : Neg Vec2 := ⟨Vec2.neg⟩
instance : Inhabited Vec2 := ⟨Vec2.zero⟩

end Vec2

/-- Model of `PanZoom { pan: Vec2, zoom: f32 }` from `state/ui_state.rs`:
the affine map `screen = zoom * logical + pan`. -/
structure PanZoom where
  pan : Vec2
  zoom : ℚ
deriving DecidableEq, Repr

namespace PanZoom

/-- `impl Mul<Vec2> for PanZoom`: `self.zoom * rhs + self.pan`. -/
def mulVec (pz : PanZoom) (v : Vec2) : Vec2 := Vec2.smul pz.zoom v + pz.pan

/-- `impl Mul<PanZoom> for PanZoom`:
`PanZoom { pan: self.pan + rhs.pan * self.zoom, zoom: self.zoom * rhs.zoom }`. -/
def comp (a b : PanZoom) : PanZoom :=
  { pan := a.pan + Vec2.smul a.zoom b.pan, zoom := a.zoom * b.zoom }

/-- `PanZoom::from_zoom_to_pos(zoom, pos)`: `pan = pos * (1 - zoom)`. -/
def from_zoom_to_pos (zoom : ℚ) (pos : Vec2) : PanZoom :=
  { zoom := zoom, pan := Vec2.smul (1 - zoom) pos }

/-- `PanZoom::zoom_to_pos`: `*self = *self * PanZoom::from_zoom_to_pos(zoom, pos)`. -/
def zoom_to_pos (pz : PanZoom) (zoom : ℚ) (logical_pos : Vec2) : PanZoom :=
  pz.comp (from_zoom_to_pos zoom logical_pos)

/-- `PanZoom::inverse`: `iz = 1/zoom; pan = -pan * iz, zoom = iz`. -/
def inverse (pz : PanZoom) : PanZoom :=
  { pan := Vec2.smul (1 / pz.zoom) (-pz.pan), zoom := 1 / pz.zoom }

/-- `PanZoom::logical2screen(pos) = self * pos`. -/
def logical2screen (pz : PanZoom) (pos : Vec2) : Vec2 := pz.mulVec pos

/-- `PanZoom::screen2logical(pos) = self.inverse() * pos`. -/
def screen2logical (pz : PanZoom) (pos : Vec2) : Vec2 := pz.inverse.mulVec pos

def idPZ : PanZoom := { pan := Vec2.zero, zoom := 1 }

instance : Inhabited PanZoom := ⟨idPZ⟩

end PanZoom

/-!
Association-list model of `slotmap::SlotMap` / `slotmap::SecondaryMap`.
Keys are natural numbers (the generational ids never repeat, which the
fresh-key counters in `Graph` reproduce).
-/

/-- First binding of key `k`, the model of map lookup / `get`. -/
def alookup {β : Type} (k : Nat) : List (Nat × β) → Option β
  | [] => none
  | (a, b) :: t => if a = k then some b else alookup k t

/-- Drop every binding of key `k`, the model of map `remove`. -/
def aremove {β : Type} (k : Nat) : List (Nat × β) → List (Nat × β)
  | [] => []
  | (a, b) :: t => if a = k then aremove k t else (a, b) :: aremove k t

/-- Insert-or-replace, the model of map `insert`. -/
def ainsert {β : Type} (k : Nat) (v : β) (m : List (Nat × β)) : List (Nat × β) :=
  (k, v) :: aremove k m

/-- Apply `f` to the value bound to `k` (no-op when absent), the model of
in-place mutation through `IndexMut` on a live key. -/
def aupdate {β : Type} (k : Nat) (f : β → β) (m : List (Nat × β)) : List (Nat × β) :=
  m.map (fun p => if p.1 = k then (p.1, f p.2) else p)

theorem alookup_cons {β : Type} (a : Nat) (b : β) (t : List (Nat × β)) (k : Nat) :
    alookup k ((a, b) :: t) = if a = k then some b else alookup k t := rfl

theorem alookup_aremove {β : Type} (k k2 : Nat) (m : List (Nat × β)) :
    alookup k (aremove k2 m) = if k = k2 then none else alookup k m := by
  induction m with
  | nil => simp [aremove, alookup]
  | cons p t ih =>
    obtain ⟨a, b⟩ := p
    by_cases hak : a = k2
    · subst hak
      simp only [aremove, if_true, ih]
      by_cases hk : k = a
      · simp [hk]
      · simp [alookup, hk, Ne.symm hk]
    · simp only [aremove, hak, if_false, alookup_cons, ih]
      by_cases hk : a = k
      · subst hk
        simp [hak]
      · simp [hk]

theorem alookup_ainsert {β : Type} (k : Nat) (v : β) (m : List (Nat × β)) :
    alookup k (ainsert k v m) = some v := by
  simp [ainsert, alookup]

theorem alookup_ainsert_ne {β : Type} (k k2 : Nat) (v : β) (m : List (Nat × β))
    (h : k ≠ k2) : alookup k (ainsert k2 v m) = alookup k m := by
  simp only [ainsert, alookup_cons, Ne.symm h, if_false]
  rw [alookup_aremove]
  simp [h]

/-!
The graph data model. The struct declarations (`Graph`, `Node`, `InputParam`,
`OutputParam`, the id types) live in `state/graph.rs`, which is not among the
provided sources; their field layout is reconstructed from how
`state/graph_impls.rs`, `state/index_impls.rs` and `state/graph_editor.rs`
access them, and from the spec's data-model section. Ids are `Nat` (slotmap
keys are opaque, unique, comparable handles).
-/

def NodeId : Type := Nat
def InputId : Type := Nat
def OutputId : Type := Nat

instance : DecidableEq NodeId := instDecidableEqNat
instance : DecidableEq InputId := instDecidableEqNat
instance : DecidableEq OutputId := instDecidableEqNat

/-- `enum AnyParameterId { Input(InputId), Output(OutputId) }`. -/
inductive AnyParameterId where
  | input (id : Nat)
  | output (id : Nat)
deriving DecidableEq, Repr

/-- `enum InputParamKind` from the data model. -/
inductive InputParamKind where
  | connectionOnly
  | constantOnly
  | connectionOrConstant
deriving DecidableEq, Repr

/-- `Node<NodeData>`: id, label, ordered `(name, id)` port lists, user payload. -/
structure Node (NodeData : Type) where
  id : Nat
  label : String
  inputs : List (String × Nat)
  outputs : List (String × Nat)
  user_data : NodeData
deriving DecidableEq, Repr

/-- `Node::input_ids`. -/
def Node.input_ids {NodeData : Type} (n : Node NodeData) : List Nat :=
  n.inputs.map (fun p => p.2)

/-- `Node::output_ids`. -/
def Node.output_ids {NodeData : Type} (n : Node NodeData) : List Nat :=
  n.outputs.map (fun p => p.2)

/-- `InputParam<DataType, ValueType>`. -/
structure InputParam (DataType ValueType : Type) where
  id : Nat
  typ : DataType
  value : ValueType
  kind : InputParamKind
  node : Nat
  shown_inline : Bool
deriving DecidableEq, Repr

/-- `OutputParam<DataType>`. -/
structure OutputParam (DataType : Type) where
  id : Nat
  node : Nat
  typ : DataType
deriving DecidableEq, Repr

/-- `Graph<NodeData, DataType, ValueType>`: node arena, two port arenas and the
connection map (`SecondaryMap<InputId, OutputId>`, keyed by input). The three
counters model the slotmap allocators, which never hand out a live key twice. -/
structure Graph (NodeData DataType ValueType : Type) where
  nodes : List (Nat × Node NodeData)
  inputs : List (Nat × InputParam DataType ValueType)
  outputs : List (Nat × OutputParam DataType)
  connections : List (Nat × Nat)
  next_node : Nat
  next_input : Nat
  next_output : Nat

namespace Graph

variable {NodeData DataType ValueType : Type}

/-- `Graph::new`. -/
def new : Graph NodeData DataType ValueType :=
  { nodes := [], inputs := [], outputs := [], connections := [],
    next_node := 0, next_input := 0, next_output := 0 }

/-- `Graph::add_node`: insert a node with empty port lists under a fresh key,
then run the caller's build function `f` on the updated graph and the new id. -/
def add_node (g : Graph NodeData DataType ValueType) (label : String)
    (user_data : NodeData)
    (f : Graph NodeData DataType ValueType → Nat → Graph NodeData DataType ValueType) :
    Graph NodeData DataType ValueType × Nat :=
  let node_id := g.next_node
  let g1 := { g with
    nodes := ainsert node_id
      { id := node_id, label := label, inputs := [], outputs := [],
        user_data := user_data } g.nodes,
    next_node := g.next_node + 1 }
  (f g1 node_id, node_id)

/-- `Graph::add_input_param`: allocate the arena entry under a fresh key and
append `(name, input_id)` to the owning node's ordered input list. -/
def add_input_param (g : Graph NodeData DataType ValueType) (node_id : Nat)
    (name : String) (typ : DataType) (value : ValueType) (kind : InputParamKind)
    (shown_inline : Bool) : Graph NodeData DataType ValueType × Nat :=
  let input_id := g.next_input
  ({ g with
      inputs := ainsert input_id
        { id := input_id, typ := typ, value := value, kind := kind,
          node := node_id, shown_inline := shown_inline } g.inputs,
      nodes := aupdate node_id
        (fun n => { n with inputs := n.inputs ++ [(name, input_id)] }) g.nodes,
      next_input := g.next_input + 1 },
    input_id)

/-- `Graph::add_output_param`. -/
def add_output_param (g : Graph NodeData DataType ValueType) (node_id : Nat)
    (name : String) (typ : DataType) : Graph NodeData DataType ValueType × Nat :=
  let output_id := g.next_output
  ({ g with
      outputs := ainsert output_id
        { id := output_id, node := node_id, typ := typ } g.outputs,
      nodes := aupdate node_id
        (fun n => { n with outputs := n.outputs ++ [(name, output_id)] }) g.nodes,
      next_output := g.next_output + 1 },
    output_id)

/-- `Graph::remove_input_param`: retract the port from its node's list, free
its arena entry and drop any connection keyed by it. The Rust code panics on a
stale id (`self.inputs.borrow()[param]`); the model leaves the graph unchanged
in that unreachable branch. -/
def remove_input_param (g : Graph NodeData DataType ValueType) (param : Nat) :
    Graph NodeData DataType ValueType :=
  match alookup param g.inputs with
  | none => g
  | some ip =>
    { g with
      nodes := aupdate ip.node
        (fun n => { n with inputs := n.inputs.filter (fun p => p.2 ≠ param) }) g.nodes,
      inputs := aremove param g.inputs,
      connections := g.connections.filter (fun p => p.1 ≠ param) }

/-- `Graph::remove_output_param`. -/
def remove_output_param (g : Graph NodeData DataType ValueType) (param : Nat) :
    Graph NodeData DataType ValueType :=
  match alookup param g.outputs with
  | none => g
  | some op =>
    { g with
      nodes := aupdate op.node
        (fun n => { n with outputs := n.outputs.filter (fun p => p.2 ≠ param) }) g.nodes,
      outputs := aremove param g.outputs,
      connections := g.connections.filter (fun p => p.2 ≠ param) }

/-- The predicate of the `retain` in `Graph::remove_node`: the edge `(i, o)`
touches `node_id` (`outputs[o].node == node_id || inputs[i].node == node_id`).
The Rust indexing panics on a dangling edge; the model treats a dangling end
as not belonging to `node_id`. -/
def conn_touches (g : Graph NodeData DataType ValueType) (node_id : Nat)
    (p : Nat × Nat) : Bool :=
  (match alookup p.2 g.outputs with
   | some op => decide (op.node = node_id)
   | none => false) ||
  (match alookup p.1 g.inputs with
   | some ip => decide (ip.node = node_id)
   | none => false)

/-- `Graph::remove_node`: sever every edge touching the node (collecting them
in order as `disconnect_events`), free the node's ports, remove the node, and
return the removed node with the severed edges. The Rust `expect("Node should
exist")` panic on a missing id is modelled by the `none` result. -/
def remove_node (g : Graph NodeData DataType ValueType) (node_id : Nat) :
    Graph NodeData DataType ValueType ×
      Option (Node NodeData) × List (Nat × Nat) :=
  match alookup node_id g.nodes with
  | none => (g, none, [])
  | some node =>
    let disconnect_events := g.connections.filter (fun p => g.conn_touches node_id p)
    let kept := g.connections.filter (fun p => ! g.conn_touches node_id p)
    let inputs2 := node.input_ids.foldl (fun acc i => aremove i acc) g.inputs
    let outputs2 := node.output_ids.foldl (fun acc o => aremove o acc) g.outputs
    ({ g with
        connections := kept,
        inputs := inputs2,
        outputs := outputs2,
        nodes := aremove node_id g.nodes },
      some node, disconnect_events)

/-- `Graph::remove_connection`. -/
def remove_connection (g : Graph NodeData DataType ValueType) (input_id : Nat) :
    Graph NodeData DataType ValueType × Option Nat :=
  ({ g with connections := aremove input_id g.connections },
   alookup input_id g.connections)

/-- `Graph::add_connection`: `self.connections_mut().insert(input, output)`. -/
def add_connection (g : Graph NodeData DataType ValueType) (output input : Nat) :
    Graph NodeData DataType ValueType :=
  { g with connections := ainsert input output g.connections }

/-- `Graph::connection`. -/
def connection (g : Graph NodeData DataType ValueType) (input : Nat) : Option Nat :=
  alookup input g.connections

/-- `Graph::param_typ_eq`: `outputs[output].typ == inputs[input].typ`. The Rust
indexing panics on a stale id; the model answers `false` there. -/
def param_typ_eq [DecidableEq DataType] (g : Graph NodeData DataType ValueType)
    (output input : Nat) : Bool :=
  match alookup output g.outputs, alookup input g.inputs with
  | some op, some ip => decide (op.typ = ip.typ)
  | _, _ => false

end Graph

/-!
UI state (`state/ui_state.rs`): `ConnectTo`, `ConnectionInProgress`,
`DragState`, `PortsData`, `NodeFinder`. A `yew::NodeRef` is only ever consumed
through `get_center` / `get_offset`, which may fail to resolve; it is modelled
as `Option Vec2` (the element's resolved center, or the viewport's offset).
-/

/-- `enum ConnectTo<Id> { Id(Id), Pos(Vec2) }`. -/
inductive ConnectTo where
  | id (i : Nat)
  | pos (p : Vec2)
deriving DecidableEq, Repr

/-- `enum ConnectionInProgress { FromInput { src, dest }, FromOutput { src, dest } }`. -/
inductive ConnectionInProgress where
  | fromInput (src : Nat) (dest : ConnectTo)
  | fromOutput (src : Nat) (dest : ConnectTo)
deriving DecidableEq, Repr

/-- `ConnectionInProgress::pair`: the `(output, input)` pair when the free end
is snapped to a port. -/
def ConnectionInProgress.pair : ConnectionInProgress → Option (Nat × Nat)
  | .fromInput input (.id output) => some (output, input)
  | .fromOutput output (.id input) => some (output, input)
  | _ => none

/-- `enum DragState` (field `end` of `SelectBox` is named `stop`, `end` being a
Lean keyword). -/
inductive DragState where
  | selectBox (start : Vec2) (stop : Vec2)
  | panDrag (prev_pos : Vec2)
  | moveNode (id : Nat) (shift : Vec2)
  | connectPort (c : ConnectionInProgress)
deriving DecidableEq, Repr

/-- `PortsData<T>`: separate input and output maps. -/
structure PortsData (T : Type) where
  input : List (Nat × T)
  output : List (Nat × T)
deriving DecidableEq, Repr

/-- `PortsData::get`. -/
def PortsData.get {T : Type} (d : PortsData T) : AnyParameterId → Option T
  | .input id => alookup id d.input
  | .output id => alookup id d.output

/-- `PortsData::insert`. -/
def PortsData.insert {T : Type} (d : PortsData T) (key : AnyParameterId) (v : T) :
    PortsData T :=
  match key with
  | .input id => { d with input := ainsert id v d.input }
  | .output id => { d with output := ainsert id v d.output }

/-- `PortsData::remove`. -/
def PortsData.remove {T : Type} (d : PortsData T) (key : AnyParameterId) :
    PortsData T :=
  match key with
  | .input id => { d with input := aremove id d.input }
  | .output id => { d with output := aremove id d.output }

/-- `struct NodeFinder { pos, is_showing }`. -/
structure NodeFinder where
  pos : Vec2
  is_showing : Bool
deriving DecidableEq, Repr

/-- Modelled from the spec: `NodeTemplateTrait` (its file `state/traits.rs` is
not among the provided sources). A template supplies a label, initial user
data, and `build_node`, which only adds ports to the freshly created node; it
is modelled as the list of `add_input_param` / `add_output_param` calls the
build closure performs. -/
inductive BuildStep (DataType ValueType : Type) where
  | addInput (name : String) (typ : DataType) (value : ValueType)
      (kind : InputParamKind) (shown_inline : Bool)
  | addOutput (name : String) (typ : DataType)

/-- Modelled from the spec: a `NodeTemplate` value as consumed by
`create_node` (label, user data, port-building steps). -/
structure NodeTemplate (NodeData DataType ValueType : Type) where
  label : String
  user_data : NodeData
  build : List (BuildStep DataType ValueType)

/-- Run a template's build steps on the graph, as `build_node` does inside
`add_node`'s build closure. -/
def runBuild {NodeData DataType ValueType : Type}
    (steps : List (BuildStep DataType ValueType))
    (g : Graph NodeData DataType ValueType) (node_id : Nat) :
    Graph NodeData DataType ValueType :=
  steps.foldl
    (fun acc step =>
      match step with
      | .addInput name typ value kind shown =>
        (acc.add_input_param node_id name typ value kind shown).1
      | .addOutput name typ => (acc.add_output_param node_id name typ).1)
    g

/-- `GraphEditorState` (`state/graph_editor.rs`): the graph, the selection
set, the per-node logical positions, the port-position registry, the node
finder, the viewport transform, the viewport element (`graph_ref`, modelled by
its resolved offset) and the at-most-one live drag gesture. The selection set
(`HashSet<NodeId>`) is modelled as a duplicate-free list. -/
structure GraphEditorState (NodeData DataType ValueType : Type) where
  graph : Graph NodeData DataType ValueType
  selected_nodes : List Nat
  node_positions : List (Nat × Vec2)
  port_refs : PortsData (Option Vec2)
  node_finder : NodeFinder
  pan_zoom : PanZoom
  graph_ref : Option Vec2
  drag_state : Option DragState

/-- `HashSet::insert` on the selection set. -/
def sinsert (n : Nat) (s : List Nat) : List Nat := if n ∈ s then s else n :: s

namespace GraphEditorState

variable {NodeData DataType ValueType : Type}

/-- `GraphEditorState::exclusive_select`: clear, then insert. -/
def exclusive_select (st : GraphEditorState NodeData DataType ValueType)
    (node_id : Nat) : GraphEditorState NodeData DataType ValueType :=
  { st with selected_nodes := sinsert node_id [] }

/-- `GraphEditorState::inclusive_select`. -/
def inclusive_select (st : GraphEditorState NodeData DataType ValueType)
    (node_id : Nat) : GraphEditorState NodeData DataType ValueType :=
  { st with selected_nodes := sinsert node_id st.selected_nodes }

/-- `GraphEditorState::unselect`. -/
def unselect (st : GraphEditorState NodeData DataType ValueType)
    (node_id : Nat) : GraphEditorState NodeData DataType ValueType :=
  { st with selected_nodes := st.selected_nodes.filter (fun m => m ≠ node_id) }

/-- `GraphEditorState::selection`. -/
def selection (st : GraphEditorState NodeData DataType ValueType)
    (id : Nat) (is_shift_key_pressed : Bool) :
    GraphEditorState NodeData DataType ValueType :=
  if is_shift_key_pressed then
    if id ∈ st.selected_nodes then st.unselect id else st.inclusive_select id
  else st.exclusive_select id

/-- `GraphEditorState::create_node`: add the node (running the template's port
build), place it at `pan_zoom.screen2logical(node_finder.pos)`, insert the
node's position and insert the node into the selection set, then register a
default (unresolved) port ref for each of the new node's ports. -/
def create_node (st : GraphEditorState NodeData DataType ValueType)
    (template : NodeTemplate NodeData DataType ValueType) :
    GraphEditorState NodeData DataType ValueType × Nat :=
  let r := st.graph.add_node template.label template.user_data
    (fun g id => runBuild template.build g id)
  let g2 := r.1
  let new_node := r.2
  let pos := st.pan_zoom.screen2logical st.node_finder.pos
  let node := (alookup new_node g2.nodes).getD
    { id := new_node, label := template.label, inputs := [], outputs := [],
      user_data := template.user_data }
  let refs1 := node.input_ids.foldl
    (fun acc i => acc.insert (.input i) none) st.port_refs
  let refs2 := node.output_ids.foldl
    (fun acc o => acc.insert (.output o) none) refs1
  ({ st with
      graph := g2,
      node_positions := ainsert new_node pos st.node_positions,
      selected_nodes := sinsert new_node st.selected_nodes,
      port_refs := refs2 },
    new_node)

/-- `GraphEditorState::delete_node`: drop from the selection, cascade-remove
from the graph, drop the removed node's port refs. -/
def delete_node (st : GraphEditorState NodeData DataType ValueType)
    (node_id : Nat) :
    GraphEditorState NodeData DataType ValueType ×
      Option (Node NodeData) × List (Nat × Nat) :=
  let sel := st.selected_nodes.filter (fun m => m ≠ node_id)
  let r := st.graph.remove_node node_id
  match r.2.1 with
  | none => ({ st with selected_nodes := sel, graph := r.1 }, none, r.2.2)
  | some node =>
    let refs1 := node.input_ids.foldl
      (fun acc i => acc.remove (.input i)) st.port_refs
    let refs2 := node.output_ids.foldl
      (fun acc o => acc.remove (.output o)) refs1
    ({ st with selected_nodes := sel, graph := r.1, port_refs := refs2 },
     some node, r.2.2)

/-- `GraphEditorState::start_moving_node`: only arms the gesture when the node
is already selected. -/
def start_moving_node (st : GraphEditorState NodeData DataType ValueType)
    (id : Nat) (shift : Vec2) : GraphEditorState NodeData DataType ValueType :=
  if id ∈ st.selected_nodes then
    { st with drag_state := some (.moveNode id shift) }
  else st

/-- `GraphEditorState::move_node`: one rigid translation of the whole
selection by `screen2logical(pos - shift) - node_positions[id]`. -/
def move_node (st : GraphEditorState NodeData DataType ValueType) (pos : Vec2) :
    GraphEditorState NodeData DataType ValueType × Option Vec2 :=
  match st.drag_state with
  | some (.moveNode id shift) =>
    let selected_pos := (alookup id st.node_positions).getD Vec2.zero
    let drag_delta := st.pan_zoom.screen2logical (pos - shift) - selected_pos
    ({ st with node_positions := (st.node_positions.map
        (fun q => if q.1 ∈ st.selected_nodes then (q.1, q.2 + drag_delta) else q)) },
      some drag_delta)
  | _ => (st, none)

/-- `GraphEditorState::end_moving_node`: `self.drag_state.take()`. -/
def end_moving_node (st : GraphEditorState NodeData DataType ValueType) :
    GraphEditorState NodeData DataType ValueType :=
  { st with drag_state := none }

/-- The position the connection gesture starts from:
`port_refs.get(id).and_then(get_center)` zipped with the viewport offset,
`p - o`, defaulting to zero when either is unresolved. -/
def start_pos (st : GraphEditorState NodeData DataType ValueType)
    (id : AnyParameterId) : Vec2 :=
  match (st.port_refs.get id).bind (fun c => c), st.graph_ref with
  | some p, some o => p - o
  | _, _ => Vec2.zero

/-- `GraphEditorState::start_connection`: dragging from a connected input
retracts its edge and continues the gesture from the formerly-connected
output, returning the retracted pair; otherwise the gesture starts fresh from
the given port and `None` is returned. -/
def start_connection (st : GraphEditorState NodeData DataType ValueType)
    (id : AnyParameterId) :
    GraphEditorState NodeData DataType ValueType × Option (Nat × Nat) :=
  let pos := st.start_pos id
  match id with
  | .input input =>
    match alookup input st.graph.connections with
    | some output =>
      ({ st with
          graph := { st.graph with
            connections := aremove input st.graph.connections },
          drag_state := some (.connectPort (.fromOutput output (.pos pos))) },
        some (output, input))
    | none =>
      ({ st with drag_state := some (.connectPort (.fromInput input (.pos pos))) },
        none)
  | .output output =>
    ({ st with drag_state := some (.connectPort (.fromOutput output (.pos pos))) },
      none)

/-- `GraphEditorState::move_connection`: update the free end only while it is
a raw position. -/
def move_connection (st : GraphEditorState NodeData DataType ValueType)
    (pos : Vec2) : GraphEditorState NodeData DataType ValueType :=
  match st.drag_state with
  | some (.connectPort (.fromInput src (.pos _))) =>
    { st with drag_state := some (.connectPort (.fromInput src (.pos pos))) }
  | some (.connectPort (.fromOutput src (.pos _))) =>
    { st with drag_state := some (.connectPort (.fromOutput src (.pos pos))) }
  | _ => st

/-- `GraphEditorState::end_connection`: take the drag state; when it was a
connection gesture snapped to a pair satisfying `param_typ_eq`, commit the
edge and return the pair; otherwise return `None`. -/
def end_connection [DecidableEq DataType]
    (st : GraphEditorState NodeData DataType ValueType) :
    GraphEditorState NodeData DataType ValueType × Option (Nat × Nat) :=
  let st1 := { st with drag_state := none }
  match st.drag_state with
  | some (.connectPort c) =>
    match c.pair with
    | some (output, input) =>
      if st.graph.param_typ_eq output input then
        ({ st1 with graph := st.graph.add_connection output input },
          some (output, input))
      else (st1, none)
    | none => (st1, none)
  | _ => (st1, none)

/-- `GraphEditorState::start_select_box`. -/
def start_select_box (st : GraphEditorState NodeData DataType ValueType)
    (start : Vec2) : GraphEditorState NodeData DataType ValueType :=
  { st with drag_state := some (.selectBox start start) }

/-- `GraphEditorState::scale_select_box`. -/
def scale_select_box (st : GraphEditorState NodeData DataType ValueType)
    (stop : Vec2) : GraphEditorState NodeData DataType ValueType :=
  match st.drag_state with
  | some (.selectBox start _) =>
    { st with drag_state := some (.selectBox start stop) }
  | _ => st

/-- `GraphEditorState::end_select_box`: take the drag state; when it was a
select box, add every node whose logical position lies strictly between the
two screen-min/max corners converted to logical space
(`min.cmplt(pos).all() && pos.cmplt(max).all()`). -/
def end_select_box (st : GraphEditorState NodeData DataType ValueType) :
    GraphEditorState NodeData DataType ValueType :=
  match st.drag_state with
  | some (.selectBox start stop) =>
    let lo := st.pan_zoom.screen2logical (Vec2.vmin start stop)
    let hi := st.pan_zoom.screen2logical (Vec2.vmax start stop)
    { st with
      drag_state := none,
      selected_nodes := st.node_positions.foldl
        (fun sel q =>
          if Vec2.cmplt_all lo q.2 && Vec2.cmplt_all q.2 hi then sinsert q.1 sel
          else sel)
        st.selected_nodes }
  | _ => { st with drag_state := none }

end GraphEditorState

/-- Does an optional drag state hold the `SelectBox` variant? -/
def isSelectBoxState : Option DragState → Bool
  | some (.selectBox _ _) => true
  | _ => false

/-- Does an optional drag state hold the `ConnectPort` variant? -/
def isConnectPortState : Option DragState → Bool
  | some (.connectPort _) => true
  | _ => false

/-- Does an optional drag state hold the `MoveNode` variant? -/
def isMoveNodeState : Option DragState → Bool
  | some (.moveNode _ _) => true
  | _ => false

/-- A concrete empty editor state (over `Unit`/`Nat`/`Unit`) used to
instantiate theorems at concrete inputs. -/
def egState0 : GraphEditorState Unit Nat Unit :=
  { graph := Graph.new, selected_nodes := [], node_positions := [],
    port_refs := ⟨[], []⟩, node_finder := ⟨Vec2.zero, false⟩,
    pan_zoom := PanZoom.idPZ, graph_ref := none, drag_state := none }

/-- The graph and gesture operations of the edge-uniqueness claim, as a
reified alphabet so that arbitrary operation sequences can be quantified
over. -/
inductive EdOp where
  | addConnection (output input : Nat)
  | endConnection
  | startConnection (id : AnyParameterId)
  | removeNode (n : Nat)
  | removeInputParam (i : Nat)
  | removeOutputParam (o : Nat)

/-- Run one operation on the editor state (return values discarded).
`removeNode` runs the editor-level `delete_node`, which wraps
`Graph::remove_node`. -/
def stepOp {NodeData DataType ValueType : Type} [DecidableEq DataType]
    (st : GraphEditorState NodeData DataType ValueType) :
    EdOp → GraphEditorState NodeData DataType ValueType
  | .addConnection output input =>
    { st with graph := st.graph.add_connection output input }
  | .endConnection => st.end_connection.1
  | .startConnection id => (st.start_connection id).1
  | .removeNode n => (st.delete_node n).1
  | .removeInputParam i => { st with graph := st.graph.remove_input_param i }
  | .removeOutputParam o => { st with graph := st.graph.remove_output_param o }

/-- Run a sequence of operations. -/
def runOps {NodeData DataType ValueType : Type} [DecidableEq DataType]
    (ops : List EdOp) (st : GraphEditorState NodeData DataType ValueType) :
    GraphEditorState NodeData DataType ValueType :=
  ops.foldl stepOp st

/-- Each input is connected to at most one output. -/
def AtMostOne (m : List (Nat × Nat)) : Prop :=
  ∀ i o1 o2, (i, o1) ∈ m → (i, o2) ∈ m → o1 = o2

/-- A concrete editor state whose live gesture is snapped onto a
type-mismatched pair: output `0` has type `0`, input `0` has type `1`. -/
def egMismatchState : GraphEditorState Unit Nat Unit :=
  { egState0 with
    graph := { (Graph.new : Graph Unit Nat Unit) with
      outputs := [(0, { id := 0, node := 0, typ := 0 })],
      inputs := [(0, { id := 0, typ := 1, value := (), kind := .connectionOnly,
                       node := 1, shown_inline := true })] },
    drag_state := some (.connectPort (.fromOutput 0 (.id 0))) }

/-- A concrete editor state in which input `5` is connected to output `7`. -/
def egConnState : GraphEditorState Unit Nat Unit :=
  { egState0 with
    graph := { (Graph.new : Graph Unit Nat Unit) with connections := [(5, 7)] } }

/-- A concrete editor state with node `5` selected. -/
def egSelState : GraphEditorState Unit Nat Unit :=
  { egState0 with selected_nodes := [5] }

/-- A trivial concrete node template. -/
def egTemplate : NodeTemplate Unit Nat Unit :=
  { label := "node", user_data := (), build := [] }

/-- A concrete editor state with a node at logical `(0, 0)` and a live select
box from screen `(0, 0)` to `(100, 100)` under the identity transform. -/
def egBoxState : GraphEditorState Unit Nat Unit :=
  { egState0 with
    node_positions := [(4, Vec2.zero)],
    drag_state := some (.selectBox Vec2.zero ⟨100, 100⟩) }

/-- A concrete two-node graph: node `2` owns input `4`, node `3` owns
output `9`, and input `4` is connected to output `9`. -/
def egGraphRm : Graph Unit Nat Unit :=
  { nodes := [(2, { id := 2, label := "a", inputs := [("in", 4)], outputs := [],
                    user_data := () }),
              (3, { id := 3, label := "b", inputs := [],
                    outputs := [("out", 9)], user_data := () })],
    inputs := [(4, { id := 4, typ := 0, value := (), kind := .connectionOnly,
                     node := 2, shown_inline := true })],
    outputs := [(9, { id := 9, node := 3, typ := 0 })],
    connections := [(4, 9)],
    next_node := 10, next_input := 10, next_output := 10 }

/-- A concrete editor state with two selected nodes and a live move gesture
anchored at node `1`. -/
def egMoveState : GraphEditorState Unit Nat Unit :=
  { egState0 with
    selected_nodes := [1, 2],
    node_positions := [(1, ⟨10, 10⟩), (2, ⟨20, 20⟩), (3, ⟨30, 30⟩)],
    drag_state := some (.moveNode 1 ⟨1, 1⟩) }

/-!
Theorems. Each claim of the specification is settled by one theorem below
(with a witness instantiation when the theorem carries hypotheses, and a
counterexample where the claim fails on the code).
-/

theorem vec2_add_def (a b : Vec2) : a + b = ⟨a.x + b.x, a.y + b.y⟩ := rfl

theorem vec2_sub_def (a b : Vec2) : a - b = ⟨a.x - b.x, a.y - b.y⟩ := rfl

theorem vec2_neg_def (a : Vec2) : -a = ⟨-a.x, -a.y⟩ := rfl

/-- C8: for every `PanZoom` with `zoom ≠ 0` and every point `p`,
`screen2logical (logical2screen p) = p` (exactly, over exact arithmetic). -/
theorem panzoom_round_trip (pz : PanZoom) (p : Vec2) (h : pz.zoom ≠ 0) :
    pz.screen2logical (pz.logical2screen p) = p := by
  obtain ⟨⟨px, py⟩, z⟩ := pz
  obtain ⟨a, b⟩ := p
  simp only [PanZoom.screen2logical, PanZoom.logical2screen, PanZoom.inverse,
    PanZoom.mulVec, Vec2.smul, vec2_add_def, vec2_neg_def, Vec2.mk.injEq] at *
  constructor <;> field_simp

/-- Witness for C8 at `pan = (3, 5)`, `zoom = 2`, `p = (7, 11)`. -/
theorem panzoom_round_trip_witness :
    ((2 : ℚ) ≠ 0) ∧
      (PanZoom.mk ⟨3, 5⟩ 2).screen2logical
        ((PanZoom.mk ⟨3, 5⟩ 2).logical2screen ⟨7, 11⟩) = ⟨7, 11⟩ :=
  ⟨by norm_num, panzoom_round_trip (PanZoom.mk ⟨3, 5⟩ 2) ⟨7, 11⟩ (by norm_num)⟩

/-- C9: after `zoom_to_pos(zoom_factor, anchor)` the screen position of the
anchor is unchanged (exactly, over exact arithmetic, for every transform and
factor — no nonzero-zoom hypothesis is even needed). -/
theorem zoom_anchor_invariance (pz : PanZoom) (zoom : ℚ) (anchor : Vec2) :
    (pz.zoom_to_pos zoom anchor).logical2screen anchor =
      pz.logical2screen anchor := by
  obtain ⟨⟨px, py⟩, z⟩ := pz
  obtain ⟨a, b⟩ := anchor
  simp only [PanZoom.zoom_to_pos, PanZoom.comp, PanZoom.from_zoom_to_pos,
    PanZoom.logical2screen, PanZoom.mulVec, Vec2.smul, vec2_add_def,
    Vec2.mk.injEq]
  constructor <;> ring

/-- C10: each of `end_moving_node`, `end_connection`, `end_select_box` leaves
`drag_state` as `None` whatever gesture (if any) was live, and an end routine
that does not match the live gesture only discards it: the graph, the
selection set and the node positions are unchanged. -/
theorem end_routines_clear_drag {NodeData DataType ValueType : Type}
    [DecidableEq DataType] (st : GraphEditorState NodeData DataType ValueType) :
    st.end_moving_node.drag_state = none ∧
    st.end_connection.1.drag_state = none ∧
    st.end_select_box.drag_state = none ∧
    st.end_moving_node = { st with drag_state := none } ∧
    (isSelectBoxState st.drag_state = false →
      st.end_select_box = { st with drag_state := none }) ∧
    (isConnectPortState st.drag_state = false →
      st.end_connection = ({ st with drag_state := none }, none)) := by
  refine ⟨rfl, ?_, ?_, rfl, ?_, ?_⟩
  · rcases h : st.drag_state with _ | (⟨s, e⟩ | ⟨p⟩ | ⟨i, sh⟩ | ⟨c⟩) <;>
      simp [GraphEditorState.end_connection, h]
    rcases hp : c.pair with _ | ⟨o, i⟩
    · simp [hp]
    · by_cases ht : st.graph.param_typ_eq o i <;> simp [hp, ht]
  · rcases h : st.drag_state with _ | (⟨s, e⟩ | ⟨p⟩ | ⟨i, sh⟩ | ⟨c⟩) <;>
      simp [GraphEditorState.end_select_box, h]
  · intro hm
    rcases h : st.drag_state with _ | (⟨s, e⟩ | ⟨p⟩ | ⟨i, sh⟩ | ⟨c⟩) <;>
      simp_all [GraphEditorState.end_select_box, isSelectBoxState]
  · intro hm
    rcases h : st.drag_state with _ | (⟨s, e⟩ | ⟨p⟩ | ⟨i, sh⟩ | ⟨c⟩) <;>
      simp_all [GraphEditorState.end_connection, isConnectPortState]

/-- Witness for C10 at a concrete state whose live gesture is a pan drag, so
both mismatch hypotheses hold. -/
theorem end_routines_clear_drag_witness :
    ({ egState0 with drag_state := some (.panDrag Vec2.zero) } :
        GraphEditorState Unit Nat Unit).end_select_box =
      { egState0 with drag_state := none } ∧
    ({ egState0 with drag_state := some (.panDrag Vec2.zero) } :
        GraphEditorState Unit Nat Unit).end_connection =
      ({ egState0 with drag_state := none }, none) := by
  have h := end_routines_clear_drag
    ({ egState0 with drag_state := some (.panDrag Vec2.zero) } :
      GraphEditorState Unit Nat Unit)
  exact ⟨h.2.2.2.2.1 rfl, h.2.2.2.2.2 rfl⟩

/-- C1: with a connection gesture live, `end_connection` commits an edge iff
the gesture yields a snapped output/input pair and `param_typ_eq` holds at
release time; a type-mismatched snapped pair (and an unsnapped free end)
yields `None` and leaves `Connections` unchanged. -/
theorem end_connection_type_gating {NodeData DataType ValueType : Type}
    [DecidableEq DataType] (st : GraphEditorState NodeData DataType ValueType)
    (c : ConnectionInProgress) (h : st.drag_state = some (.connectPort c)) :
    (∀ o i, st.end_connection.2 = some (o, i) ↔
      (c.pair = some (o, i) ∧ st.graph.param_typ_eq o i = true)) ∧
    (∀ o i, c.pair = some (o, i) → st.graph.param_typ_eq o i = true →
      st.end_connection.1.graph.connections =
        ainsert i o st.graph.connections) ∧
    (∀ o i, c.pair = some (o, i) → st.graph.param_typ_eq o i = false →
      st.end_connection.2 = none ∧
      st.end_connection.1.graph.connections = st.graph.connections) ∧
    (c.pair = none → st.end_connection.2 = none ∧
      st.end_connection.1.graph.connections = st.graph.connections) := by
  refine ⟨?_, ?_, ?_, ?_⟩
  · intro o i
    rcases hp : c.pair with _ | ⟨o2, i2⟩
    · simp [GraphEditorState.end_connection, h, hp]
    · by_cases ht : st.graph.param_typ_eq o2 i2 = true
      · simp only [GraphEditorState.end_connection, h, hp, ht, if_true,
          Option.some.injEq, Prod.mk.injEq]
        constructor
        · rintro ⟨rfl, rfl⟩
          exact ⟨⟨rfl, rfl⟩, ht⟩
        · rintro ⟨⟨rfl, rfl⟩, _⟩
          exact ⟨rfl, rfl⟩
      · have ht2 : st.graph.param_typ_eq o2 i2 = false := by simpa using ht
        simp only [GraphEditorState.end_connection, h, hp, ht2,
          Bool.false_eq_true, if_false, Option.some.injEq, Prod.mk.injEq]
        constructor
        · intro h2
          exact absurd h2 (by simp)
        · rintro ⟨⟨rfl, rfl⟩, hT⟩
          rw [ht2] at hT
          exact absurd hT (by simp)
  · intro o i hp ht
    simp [GraphEditorState.end_connection, h, hp, ht, Graph.add_connection]
  · intro o i hp ht
    simp [GraphEditorState.end_connection, h, hp, ht]
  · intro hp
    simp [GraphEditorState.end_connection, h, hp]

/-- Witness for C1: at `egMismatchState` the snapped pair `(0, 0)` is
type-mismatched, so no edge is committed and `Connections` is unchanged. -/
theorem end_connection_type_gating_witness :
    egMismatchState.end_connection.2 = none ∧
    egMismatchState.end_connection.1.graph.connections =
      egMismatchState.graph.connections :=
  (end_connection_type_gating egMismatchState (.fromOutput 0 (.id 0))
    rfl).2.2.1 0 0 rfl (by decide)

/-- C4: `start_connection` on an input with an incoming edge retracts that
edge (the input is no longer connected immediately after), returns the
retracted pair and anchors the gesture at the formerly-connected output with
the free end a raw position; on an unconnected input or on an output the
gesture starts fresh from the given port and `None` is returned. -/
theorem start_connection_retracts {NodeData DataType ValueType : Type}
    (st : GraphEditorState NodeData DataType ValueType) :
    (∀ i o, alookup i st.graph.connections = some o →
      (st.start_connection (.input i)).2 = some (o, i) ∧
      (st.start_connection (.input i)).1.graph.connections =
        aremove i st.graph.connections ∧
      alookup i (st.start_connection (.input i)).1.graph.connections = none ∧
      (st.start_connection (.input i)).1.drag_state =
        some (.connectPort (.fromOutput o (.pos (st.start_pos (.input i)))))) ∧
    (∀ i, alookup i st.graph.connections = none →
      (st.start_connection (.input i)).2 = none ∧
      (st.start_connection (.input i)).1.graph.connections =
        st.graph.connections ∧
      (st.start_connection (.input i)).1.drag_state =
        some (.connectPort (.fromInput i (.pos (st.start_pos (.input i)))))) ∧
    (∀ o, (st.start_connection (.output o)).2 = none ∧
      (st.start_connection (.output o)).1.graph.connections =
        st.graph.connections ∧
      (st.start_connection (.output o)).1.drag_state =
        some (.connectPort (.fromOutput o (.pos (st.start_pos (.output o)))))) := by
  refine ⟨?_, ?_, ?_⟩
  · intro i o hc
    refine ⟨?_, ?_, ?_, ?_⟩ <;>
      simp [GraphEditorState.start_connection, hc, alookup_aremove]
  · intro i hc
    refine ⟨?_, ?_, ?_⟩ <;> simp [GraphEditorState.start_connection, hc]
  · intro o
    refine ⟨?_, ?_, ?_⟩ <;> simp [GraphEditorState.start_connection]

/-- Witness for C4 at `egConnState`, where input `5` is connected to
output `7`. -/
theorem start_connection_retracts_witness :
    (egConnState.start_connection (.input 5)).2 = some (7, 5) ∧
    (egConnState.start_connection (.input 5)).1.graph.connections =
      aremove 5 egConnState.graph.connections ∧
    alookup 5 (egConnState.start_connection (.input 5)).1.graph.connections =
      none ∧
    (egConnState.start_connection (.input 5)).1.drag_state =
      some (.connectPort (.fromOutput 7
        (.pos (egConnState.start_pos (.input 5))))) :=
  (start_connection_retracts egConnState).1 5 7 rfl

theorem mem_sinsert (m n : Nat) (s : List Nat) :
    m ∈ sinsert n s ↔ m = n ∨ m ∈ s := by
  unfold sinsert
  by_cases h : n ∈ s
  · simp only [h, if_true]
    constructor
    · exact Or.inr
    · rintro (rfl | hm)
      · exact h
      · exact hm
  · simp [h]

/-- C7: with a live move gesture anchored at a selected node `id` with a
known position `p0`, one `move_node(pos)` call returns
`Some(screen2logical(pos - shift) - p0)` and translates every selected node's
position by exactly that delta, leaving unselected nodes in place. -/
theorem move_node_rigid {NodeData DataType ValueType : Type}
    (st : GraphEditorState NodeData DataType ValueType) (id : Nat)
    (shift pos p0 : Vec2)
    (hd : st.drag_state = some (.moveNode id shift))
    (hid : id ∈ st.selected_nodes)
    (hp : alookup id st.node_positions = some p0) :
    (st.move_node pos).2 =
      some (st.pan_zoom.screen2logical (pos - shift) - p0) ∧
    (∀ n q, (n, q) ∈ st.node_positions →
      (n ∈ st.selected_nodes →
        (n, q + (st.pan_zoom.screen2logical (pos - shift) - p0)) ∈
          (st.move_node pos).1.node_positions) ∧
      (n ∉ st.selected_nodes →
        (n, q) ∈ (st.move_node pos).1.node_positions)) := by
  constructor
  · simp [GraphEditorState.move_node, hd, hp]
  · intro n q hm
    constructor
    · intro hn
      have h2 := List.mem_map_of_mem
        (fun q : Nat × Vec2 =>
          if q.1 ∈ st.selected_nodes
          then (q.1, q.2 + (st.pan_zoom.screen2logical (pos - shift) - p0))
          else q) hm
      simp only [hn, if_true] at h2
      simpa [GraphEditorState.move_node, hd, hp] using h2
    · intro hn
      have h2 := List.mem_map_of_mem
        (fun q : Nat × Vec2 =>
          if q.1 ∈ st.selected_nodes
          then (q.1, q.2 + (st.pan_zoom.screen2logical (pos - shift) - p0))
          else q) hm
      simp only [hn, if_false] at h2
      simpa [GraphEditorState.move_node, hd, hp] using h2

/-- Witness for C7 at `egMoveState`: pointer at `(16, 16)`, shift `(1, 1)`,
anchor at `(10, 10)`, so the delta is `(5, 5)`; both selected nodes move by
it and the unselected node `3` stays. -/
theorem move_node_rigid_witness :
    (egMoveState.move_node ⟨16, 16⟩).2 =
      some (egMoveState.pan_zoom.screen2logical
        (Vec2.mk 16 16 - Vec2.mk 1 1) - Vec2.mk 10 10) ∧
    ((2 : Nat), Vec2.mk 20 20 +
      (egMoveState.pan_zoom.screen2logical
        (Vec2.mk 16 16 - Vec2.mk 1 1) - Vec2.mk 10 10)) ∈
      (egMoveState.move_node ⟨16, 16⟩).1.node_positions :=
  ⟨(move_node_rigid egMoveState 1 ⟨1, 1⟩ ⟨16, 16⟩ ⟨10, 10⟩ rfl (by decide)
      rfl).1,
   ((move_node_rigid egMoveState 1 ⟨1, 1⟩ ⟨16, 16⟩ ⟨10, 10⟩ rfl (by decide)
      rfl).2 2 ⟨20, 20⟩ (by decide)).1 (by decide)⟩

/-- C5 counterexample: in `egSelState` node `5` is selected; `create_node`
returns the fresh node id `0`, yet `5` remains in the selection set, so the
selection is not replaced by the singleton of the new node. -/
theorem create_node_keeps_selection_counterexample :
    (egSelState.create_node egTemplate).2 = 0 ∧
    5 ∈ egSelState.selected_nodes ∧
    (5 : Nat) ≠ 0 ∧
    5 ∈ (egSelState.create_node egTemplate).1.selected_nodes := by
  refine ⟨rfl, by decide, by decide, ?_⟩
  decide

/-- C5 as amended: `create_node` places the new node's logical position at
`screen2logical(node_finder.pos)` and inserts the new node into the selection
set, leaving every previously selected node selected (the selection is added
to, not replaced). -/
theorem create_node_places_and_selects {NodeData DataType ValueType : Type}
    (st : GraphEditorState NodeData DataType ValueType)
    (template : NodeTemplate NodeData DataType ValueType) :
    alookup (st.create_node template).2
        (st.create_node template).1.node_positions =
      some (st.pan_zoom.screen2logical st.node_finder.pos) ∧
    (st.create_node template).2 ∈ (st.create_node template).1.selected_nodes ∧
    (∀ m, m ∈ st.selected_nodes →
      m ∈ (st.create_node template).1.selected_nodes) := by
  refine ⟨?_, ?_, ?_⟩
  · simp [GraphEditorState.create_node, alookup_ainsert]
  · simp [GraphEditorState.create_node, mem_sinsert]
  · intro m hm
    simp [GraphEditorState.create_node, mem_sinsert, hm]

/-- Witness for C5 (amended) at `egSelState` and the trivial template. -/
theorem create_node_places_and_selects_witness :
    alookup (egSelState.create_node egTemplate).2
        (egSelState.create_node egTemplate).1.node_positions =
      some (egSelState.pan_zoom.screen2logical egSelState.node_finder.pos) ∧
    (egSelState.create_node egTemplate).2 ∈
      (egSelState.create_node egTemplate).1.selected_nodes ∧
    5 ∈ (egSelState.create_node egTemplate).1.selected_nodes :=
  ⟨(create_node_places_and_selects egSelState egTemplate).1,
   (create_node_places_and_selects egSelState egTemplate).2.1,
   (create_node_places_and_selects egSelState egTemplate).2.2 5 (by decide)⟩

theorem mem_foldl_sinsert (cond : Nat × Vec2 → Bool) (l : List (Nat × Vec2))
    (sel : List Nat) (n : Nat) :
    (n ∈ l.foldl (fun s q => if cond q then sinsert q.1 s else s) sel) ↔
      (n ∈ sel ∨ ∃ q, q ∈ l ∧ q.1 = n ∧ cond q = true) := by
  induction l generalizing sel with
  | nil => simp
  | cons p t ih =>
    simp only [List.foldl_cons]
    by_cases hc : cond p = true
    · simp only [hc, if_true]
      rw [ih, mem_sinsert]
      constructor
      · rintro ((rfl | hn) | ⟨q, hq, h1, h2⟩)
        · exact Or.inr ⟨p, List.mem_cons_self p t, rfl, hc⟩
        · exact Or.inl hn
        · exact Or.inr ⟨q, List.mem_cons_of_mem p hq, h1, h2⟩
      · rintro (hn | ⟨q, hq, h1, h2⟩)
        · exact Or.inl (Or.inr hn)
        · rcases List.mem_cons.mp hq with rfl | hq2
          · exact Or.inl (Or.inl h1.symm)
          · exact Or.inr ⟨q, hq2, h1, h2⟩
    · have hc2 : cond p = false := by simpa using hc
      simp only [hc2, Bool.false_eq_true, if_false]
      rw [ih]
      constructor
      · rintro (hn | ⟨q, hq, h1, h2⟩)
        · exact Or.inl hn
        · exact Or.inr ⟨q, List.mem_cons_of_mem p hq, h1, h2⟩
      · rintro (hn | ⟨q, hq, h1, h2⟩)
        · exact Or.inl hn
        · rcases List.mem_cons.mp hq with rfl | hq2
          · rw [h2] at hc2
            exact absurd hc2 (by simp)
          · exact Or.inr ⟨q, hq2, h1, h2⟩

theorem idPZ_screen2logical (v : Vec2) : PanZoom.idPZ.screen2logical v = v := by
  obtain ⟨a, b⟩ := v
  norm_num [PanZoom.screen2logical, PanZoom.inverse, PanZoom.mulVec,
    PanZoom.idPZ, Vec2.smul, Vec2.zero, vec2_add_def, vec2_neg_def]

/-- C6 counterexample: identity transform, select box from screen `(0, 0)` to
`(100, 100)`, node `4` at logical `(0, 0)`. The node lies in the claimed
half-open rectangle `[min, max)` — it sits exactly on the min corner — yet
`end_select_box` does not add it, because the code tests `min.cmplt(pos)`
strictly. -/
theorem end_select_box_boundary_counterexample :
    egBoxState.pan_zoom.screen2logical (Vec2.vmin Vec2.zero ⟨100, 100⟩) =
      Vec2.zero ∧
    alookup 4 egBoxState.node_positions = some Vec2.zero ∧
    Vec2.cmplt_all Vec2.zero
      (egBoxState.pan_zoom.screen2logical (Vec2.vmax Vec2.zero ⟨100, 100⟩)) =
      true ∧
    4 ∉ egBoxState.end_select_box.selected_nodes := by
  have hmin : Vec2.vmin Vec2.zero ⟨100, 100⟩ = Vec2.zero := by
    norm_num [Vec2.vmin, Vec2.zero]
  have hmax : Vec2.vmax Vec2.zero ⟨100, 100⟩ = (⟨100, 100⟩ : Vec2) := by
    norm_num [Vec2.vmax, Vec2.zero]
  have hpz : egBoxState.pan_zoom = PanZoom.idPZ := rfl
  refine ⟨?_, rfl, ?_, ?_⟩
  · rw [hpz, hmin, idPZ_screen2logical]
  · rw [hpz, hmax, idPZ_screen2logical]
    decide
  · have hd : egBoxState.drag_state =
        some (.selectBox Vec2.zero ⟨100, 100⟩) := rfl
    have hpos : egBoxState.node_positions = [(4, Vec2.zero)] := rfl
    have hsel0 : egBoxState.selected_nodes = [] := rfl
    have hfalse : Vec2.cmplt_all
        (egBoxState.pan_zoom.screen2logical (Vec2.vmin Vec2.zero ⟨100, 100⟩))
        Vec2.zero = false := by
      rw [hpz, hmin, idPZ_screen2logical]
      decide
    simp [GraphEditorState.end_select_box, hd, hpos, hsel0, hfalse]

/-- C6 as amended: `end_select_box` converts the componentwise screen-space
min/max corners to logical space and adds — without removing any
already-selected node — exactly those nodes whose logical position lies
strictly inside the open rectangle `(min, max)` on both axes (both
boundaries excluded). -/
theorem end_select_box_adds_strictly_inside {NodeData DataType ValueType : Type}
    (st : GraphEditorState NodeData DataType ValueType) (start stop : Vec2)
    (hd : st.drag_state = some (.selectBox start stop)) :
    (∀ n, n ∈ st.selected_nodes → n ∈ st.end_select_box.selected_nodes) ∧
    (∀ n q, (n, q) ∈ st.node_positions →
      Vec2.cmplt_all (st.pan_zoom.screen2logical (Vec2.vmin start stop)) q =
        true →
      Vec2.cmplt_all q (st.pan_zoom.screen2logical (Vec2.vmax start stop)) =
        true →
      n ∈ st.end_select_box.selected_nodes) ∧
    (∀ n, n ∈ st.end_select_box.selected_nodes →
      n ∈ st.selected_nodes ∨ ∃ q, (n, q) ∈ st.node_positions ∧
        Vec2.cmplt_all (st.pan_zoom.screen2logical (Vec2.vmin start stop)) q =
          true ∧
        Vec2.cmplt_all q (st.pan_zoom.screen2logical (Vec2.vmax start stop)) =
          true) := by
  have hbox : st.end_select_box.selected_nodes = st.node_positions.foldl
      (fun s q =>
        if Vec2.cmplt_all (st.pan_zoom.screen2logical (Vec2.vmin start stop))
              q.2 &&
            Vec2.cmplt_all q.2
              (st.pan_zoom.screen2logical (Vec2.vmax start stop))
        then sinsert q.1 s else s)
      st.selected_nodes := by
    simp [GraphEditorState.end_select_box, hd]
  refine ⟨?_, ?_, ?_⟩
  · intro n hn
    rw [hbox, mem_foldl_sinsert]
    exact Or.inl hn
  · intro n q hm h1 h2
    rw [hbox, mem_foldl_sinsert]
    exact Or.inr ⟨(n, q), hm, rfl, by simp [h1, h2]⟩
  · intro n hn
    rw [hbox, mem_foldl_sinsert] at hn
    rcases hn with hn | ⟨q, hq, h1, h2⟩
    · exact Or.inl hn
    · rw [Bool.and_eq_true] at h2
      obtain ⟨hlo, hhi⟩ := h2
      refine Or.inr ⟨q.2, ?_, hlo, hhi⟩
      rw [← h1]
      exact hq

/-- Witness for C6 (amended) at `egBoxState` with node `9` selected before
the gesture ends: the box commit keeps it selected. -/
theorem end_select_box_adds_strictly_inside_witness :
    9 ∈ ({ egBoxState with selected_nodes := [9] } :
        GraphEditorState Unit Nat Unit).end_select_box.selected_nodes :=
  (end_select_box_adds_strictly_inside
      ({ egBoxState with selected_nodes := [9] } :
        GraphEditorState Unit Nat Unit)
      Vec2.zero ⟨100, 100⟩ rfl).1 9 (by decide)

theorem alookup_foldl_aremove {β : Type} (l : List Nat) (m : List (Nat × β))
    (k : Nat) :
    alookup k (l.foldl (fun acc i => aremove i acc) m) =
      if k ∈ l then none else alookup k m := by
  induction l generalizing m with
  | nil => simp
  | cons a t ih =>
    simp only [List.foldl_cons]
    rw [ih]
    by_cases hk : k ∈ t
    · simp [hk]
    · simp only [hk, if_false]
      rw [alookup_aremove]
      by_cases hka : k = a
      · simp [hka]
      · simp [hka, List.mem_cons, hk]

/-- C3: removing a present node severs every edge touching one of its ports
(and no other), frees all its ports from both arenas, removes the node, and
returns the removed node together with exactly the severed `(input, output)`
edges. -/
theorem remove_node_cascade {NodeData DataType ValueType : Type}
    (g : Graph NodeData DataType ValueType) (n : Nat) (node : Node NodeData)
    (h : alookup n g.nodes = some node) :
    (g.remove_node n).2.1 = some node ∧
    (∀ i o, (i, o) ∈ (g.remove_node n).1.connections →
      (∀ ip, alookup i g.inputs = some ip → ip.node ≠ n) ∧
      (∀ op, alookup o g.outputs = some op → op.node ≠ n)) ∧
    (∀ i, i ∈ node.input_ids → alookup i (g.remove_node n).1.inputs = none) ∧
    (∀ o, o ∈ node.output_ids → alookup o (g.remove_node n).1.outputs = none) ∧
    alookup n (g.remove_node n).1.nodes = none ∧
    (∀ i o, (i, o) ∈ (g.remove_node n).2.2 ↔
      ((i, o) ∈ g.connections ∧ g.conn_touches n (i, o) = true)) := by
  refine ⟨?_, ?_, ?_, ?_, ?_, ?_⟩
  · simp [Graph.remove_node, h]
  · intro i o hm
    simp only [Graph.remove_node, h] at hm
    obtain ⟨hmem, hknot⟩ := List.mem_filter.mp hm
    have hct : g.conn_touches n (i, o) = false := by
      cases hb : g.conn_touches n (i, o)
      · rfl
      · rw [hb] at hknot
        simp at hknot
    constructor
    · intro ip hip heq
      simp [Graph.conn_touches, hip, heq] at hct
    · intro op hop heq
      simp [Graph.conn_touches, hop, heq] at hct
  · intro i hi
    simp only [Graph.remove_node, h]
    rw [alookup_foldl_aremove]
    simp [hi]
  · intro o ho
    simp only [Graph.remove_node, h]
    rw [alookup_foldl_aremove]
    simp [ho]
  · simp only [Graph.remove_node, h]
    rw [alookup_aremove]
    simp
  · intro i o
    simp only [Graph.remove_node, h]
    exact List.mem_filter

/-- Witness for C3 at `egGraphRm`, removing node `2`: the node entry and its
input port are gone, and the severed edge list contains `(4, 9)`. -/
theorem remove_node_cascade_witness :
    alookup 2 (egGraphRm.remove_node 2).1.nodes = none ∧
    alookup 4 (egGraphRm.remove_node 2).1.inputs = none ∧
    (4, 9) ∈ (egGraphRm.remove_node 2).2.2 := by
  have h := remove_node_cascade egGraphRm 2
    { id := 2, label := "a", inputs := [("in", 4)], outputs := [],
      user_data := () } rfl
  exact ⟨h.2.2.2.2.1, h.2.2.1 4 (by decide),
    (h.2.2.2.2.2 4 9).mpr ⟨by decide, by decide⟩⟩

theorem mem_aremove {β : Type} (k : Nat) (m : List (Nat × β)) (x : Nat × β) :
    x ∈ aremove k m ↔ (x ∈ m ∧ x.1 ≠ k) := by
  induction m with
  | nil => simp [aremove]
  | cons p t ih =>
    obtain ⟨a, b⟩ := p
    by_cases hak : a = k
    · subst hak
      simp only [aremove, if_true, ih, List.mem_cons]
      constructor
      · rintro ⟨hx, hne⟩
        exact ⟨Or.inr hx, hne⟩
      · rintro ⟨(rfl | hx), hne⟩
        · exact absurd rfl hne
        · exact ⟨hx, hne⟩
    · simp only [aremove, hak, if_false, List.mem_cons, ih]
      constructor
      · rintro (rfl | ⟨hx, hne⟩)
        · exact ⟨Or.inl rfl, hak⟩
        · exact ⟨Or.inr hx, hne⟩
      · rintro ⟨(rfl | hx), hne⟩
        · exact Or.inl rfl
        · exact Or.inr ⟨hx, hne⟩

theorem atMostOne_of_sub (m m2 : List (Nat × Nat))
    (hs : ∀ x, x ∈ m2 → x ∈ m) (h : AtMostOne m) : AtMostOne m2 :=
  fun i o1 o2 h1 h2 => h i o1 o2 (hs _ h1) (hs _ h2)

theorem atMostOne_filter (p : Nat × Nat → Bool) (m : List (Nat × Nat))
    (h : AtMostOne m) : AtMostOne (m.filter p) :=
  atMostOne_of_sub m _ (fun x hx => (List.mem_filter.mp hx).1) h

theorem atMostOne_aremove (k : Nat) (m : List (Nat × Nat))
    (h : AtMostOne m) : AtMostOne (aremove k m) :=
  atMostOne_of_sub m _ (fun x hx => ((mem_aremove k m x).mp hx).1) h

theorem atMostOne_ainsert (k v : Nat) (m : List (Nat × Nat))
    (h : AtMostOne m) : AtMostOne (ainsert k v m) := by
  intro i o1 o2 h1 h2
  rcases List.mem_cons.mp h1 with h1 | h1 <;>
    rcases List.mem_cons.mp h2 with h2 | h2
  · injection h1 with hi1 ho1
    injection h2 with hi2 ho2
    rw [ho1, ho2]
  · injection h1 with hi1 ho1
    rw [mem_aremove] at h2
    exact absurd hi1 h2.2
  · injection h2 with hi2 ho2
    rw [mem_aremove] at h1
    exact absurd hi2 h1.2
  · rw [mem_aremove] at h1 h2
    exact h i o1 o2 h1.1 h2.1

theorem atMostOne_remove_node {NodeData DataType ValueType : Type}
    (g : Graph NodeData DataType ValueType) (n : Nat)
    (h : AtMostOne g.connections) :
    AtMostOne (g.remove_node n).1.connections := by
  rcases hn : alookup n g.nodes with _ | node <;> simp [Graph.remove_node, hn]
  · exact h
  · exact atMostOne_filter _ _ h

theorem atMostOne_stepOp {NodeData DataType ValueType : Type}
    [DecidableEq DataType] (st : GraphEditorState NodeData DataType ValueType)
    (op : EdOp) (h : AtMostOne st.graph.connections) :
    AtMostOne (stepOp st op).graph.connections := by
  cases op with
  | addConnection o i =>
    simpa [stepOp, Graph.add_connection] using atMostOne_ainsert i o _ h
  | endConnection =>
    simp only [stepOp]
    rcases hd : st.drag_state with _ | (⟨s, e⟩ | ⟨p⟩ | ⟨i2, sh⟩ | ⟨c⟩) <;>
        simp only [GraphEditorState.end_connection, hd] <;>
      try exact h
    rcases hp : c.pair with _ | ⟨o, i⟩
    · simpa [hp] using h
    · by_cases ht : st.graph.param_typ_eq o i = true
      · simp only [hp, ht, if_true]
        exact atMostOne_ainsert i o _ h
      · have ht2 : st.graph.param_typ_eq o i = false := by simpa using ht
        simpa [hp, ht2] using h
  | startConnection id =>
    rcases id with i | o
    · rcases hc : alookup i st.graph.connections with _ | o2
      · simpa [stepOp, GraphEditorState.start_connection, hc] using h
      · simp only [stepOp, GraphEditorState.start_connection, hc]
        exact atMostOne_aremove i _ h
    · simpa [stepOp, GraphEditorState.start_connection] using h
  | removeNode n =>
    have hg := atMostOne_remove_node st.graph n h
    simp only [stepOp, GraphEditorState.delete_node]
    rcases hn : (st.graph.remove_node n).2.1 with _ | node <;> simpa using hg
  | removeInputParam i =>
    simp only [stepOp]
    rcases hi : alookup i st.graph.inputs with _ | ip <;>
      simp only [Graph.remove_input_param, hi]
    · exact h
    · exact atMostOne_filter _ _ h
  | removeOutputParam o =>
    simp only [stepOp]
    rcases ho : alookup o st.graph.outputs with _ | op <;>
      simp only [Graph.remove_output_param, ho]
    · exact h
    · exact atMostOne_filter _ _ h

theorem atMostOne_runOps {NodeData DataType ValueType : Type}
    [DecidableEq DataType] (ops : List EdOp)
    (st : GraphEditorState NodeData DataType ValueType)
    (h : AtMostOne st.graph.connections) :
    AtMostOne (runOps ops st).graph.connections := by
  induction ops generalizing st with
  | nil => simpa [runOps] using h
  | cons op t ih =>
    have h2 := atMostOne_stepOp st op h
    simpa [runOps, List.foldl_cons] using ih (stepOp st op) h2

/-- C2: along every sequence of graph and gesture operations, each input maps
to at most one output in `Connections`; and inserting an edge for an input
(`add_connection`) replaces any prior edge for it rather than adding a second
one. -/
theorem edge_uniqueness {NodeData DataType ValueType : Type}
    [DecidableEq DataType] (ops : List EdOp)
    (st : GraphEditorState NodeData DataType ValueType)
    (h : AtMostOne st.graph.connections) :
    AtMostOne (runOps ops st).graph.connections ∧
    (∀ (g : Graph NodeData DataType ValueType) (o i : Nat),
      alookup i (g.add_connection o i).connections = some o ∧
      (∀ o2, (i, o2) ∈ (g.add_connection o i).connections → o2 = o)) := by
  constructor
  · exact atMostOne_runOps ops st h
  · intro g o i
    constructor
    · simp [Graph.add_connection, alookup_ainsert]
    · intro o2 hm
      simp only [Graph.add_connection] at hm
      rcases List.mem_cons.mp hm with h2 | h2
      · exact (Prod.ext_iff.mp h2).2
      · rw [mem_aremove] at h2
        exact absurd rfl h2.2

/-- Witness for C2: from the empty editor, `add_connection 3 7` followed by
re-connecting input `7` to output `5` leaves input `7` bound to `5` alone. -/
theorem edge_uniqueness_witness :
    AtMostOne (runOps [EdOp.addConnection 3 7, EdOp.addConnection 5 7]
      egState0).graph.connections ∧
    alookup 7 (((Graph.new : Graph Unit Nat Unit).add_connection 3
        7).add_connection 5 7).connections = some 5 := by
  have h := edge_uniqueness [EdOp.addConnection 3 7, EdOp.addConnection 5 7]
    egState0 (by simp [egState0, Graph.new, AtMostOne])
  exact ⟨h.1,
    (h.2 ((Graph.new : Graph Unit Nat Unit).add_connection 3 7) 5 7).1⟩
